import Mathlib

/-!
Shallow embedding of the TTL cache with stale-while-revalidate refresh
(package `cache`, file `internal/cache/cache.go` of skywall34/fantasy-trading).

Modelling conventions:
* `time.Time` and `time.Duration` are modelled as `Int` (nanoseconds);
  Go's `t.After(u)` is the strict comparison `u < t` (`timeAfter`).
* The payload type `any` is modelled by a type parameter `α`.
* A caller-supplied fetch/refresh closure is modelled by the outcome of
  invoking it: `Except String α` (`Except.error` is a non-nil Go error).
* Each operation is sequential and takes the current instant `now : Int`
  explicitly; the two adjacent `time.Now()` calls inside a single write
  are modelled as the same instant.
* The Go `map[string]*CacheEntry` is modelled extensionally as a function
  `String → Option (CacheEntry α)`; `delete` and insertion are pointwise
  updates, and the delete-while-ranging loop of `InvalidatePattern` is the
  pointwise filter it computes.
* The statistics counters (`int64`) are modelled as `Int`.
* `go c.refreshKey(key)` dispatches a background task; an operation's
  result records the keys it dispatched without running them, and
  `refreshKey` itself is split into its lookup, fetch and commit phases so
  that interleavings with other writes can be expressed.
-/

/-- Go `t.After(u)`: strictly later than. -/
def timeAfter (t u : Int) : Bool := decide (u < t)

/-- Outcome of invoking a caller-supplied `RefreshFunc`/fetch closure:
`Except.error msg` models a non-nil Go error, `Except.ok v` a successful
fetch of payload `v`. -/
abbrev RefreshFunc (α : Type) := Except String α

/-- `CacheEntry` (cache.go): cached data with metadata. -/
structure CacheEntry (α : Type) where
  data : α
  expiresAt : Int
  lastRefreshAt : Int
  refreshFunc : Option (RefreshFunc α)

/-- `CacheStats` (cache.go): hit/miss/refresh counters. -/
structure CacheStats where
  hits : Int
  misses : Int
  refreshes : Int
deriving DecidableEq

/-- The `map[string]*CacheEntry` Store, extensionally. -/
abbrev Store (α : Type) := String → Option (CacheEntry α)

/-- `Cache` (cache.go): store plus configuration and stats.  The mutex and
the shutdown channel have no sequential content and are omitted. -/
structure Cache (α : Type) where
  store : Store α
  defaultTTL : Int
  refreshBuffer : Int
  stats : CacheStats

/-- `recordHit` (cache.go). -/
def Cache.recordHit {α : Type} (c : Cache α) : Cache α :=
  { c with stats := { c.stats with hits := c.stats.hits + 1 } }

/-- `recordMiss` (cache.go). -/
def Cache.recordMiss {α : Type} (c : Cache α) : Cache α :=
  { c with stats := { c.stats with misses := c.stats.misses + 1 } }

/-- `Get` (cache.go): returns `(data, found, isStale)` and the cache with
its stats updated. -/
def Cache.Get {α : Type} (c : Cache α) (key : String) (now : Int) :
    (Option α × Bool × Bool) × Cache α :=
  match c.store key with
  | none => ((none, false, false), c.recordMiss)
  | some entry =>
    if timeAfter now entry.expiresAt then
      ((none, false, false), c.recordMiss)
    else
      let refreshThreshold := entry.expiresAt - c.refreshBuffer
      let isStale := timeAfter now refreshThreshold
      ((some entry.data, true, isStale), c.recordHit)

/-- `SetWithTTL` (cache.go): store a value with custom TTL and optional
refresh function. -/
def Cache.SetWithTTL {α : Type} (c : Cache α) (key : String) (value : α)
    (ttl : Int) (rf : Option (RefreshFunc α)) (now : Int) : Cache α :=
  { c with store := fun k =>
      if k = key then
        some { data := value, expiresAt := now + ttl,
               lastRefreshAt := now, refreshFunc := rf }
      else c.store k }

/-- `Set` (cache.go): store with the default TTL, no refresh function. -/
def Cache.Set {α : Type} (c : Cache α) (key : String) (value : α)
    (now : Int) : Cache α :=
  c.SetWithTTL key value c.defaultTTL none now

/-- `SetWithRefresh` (cache.go): store and register a refresh function. -/
def Cache.SetWithRefresh {α : Type} (c : Cache α) (key : String) (value : α)
    (ttl : Int) (rf : RefreshFunc α) (now : Int) : Cache α :=
  c.SetWithTTL key value ttl (some rf) now

/-- `GetOrSet` (cache.go).  Result: `((data, err), cache, fetchCalls,
dispatched)` where `fetchCalls` counts synchronous invocations of
`fetchFunc` during this call and `dispatched` lists the keys handed to
`go c.refreshKey` (dispatched, not yet run). -/
def Cache.GetOrSet {α : Type} (c : Cache α) (key : String) (ttl : Int)
    (fetchFunc : Except String α) (now : Int) :
    (Option α × Option String) × Cache α × Nat × List String :=
  let r := c.Get key now
  match r.1 with
  | (dataOpt, true, isStale) =>
      ((dataOpt, none), r.2, 0, if isStale then [key] else [])
  | (_, false, _) =>
      match fetchFunc with
      | Except.error e => ((none, some e), r.2, 1, [])
      | Except.ok d => ((some d, none), (r.2).SetWithTTL key d ttl none now, 1, [])

/-- `GetOrSetWithRefresh` (cache.go): like `GetOrSet` but stores the
refresh function on the miss path. -/
def Cache.GetOrSetWithRefresh {α : Type} (c : Cache α) (key : String) (ttl : Int)
    (refreshFunc : RefreshFunc α) (now : Int) :
    (Option α × Option String) × Cache α × Nat × List String :=
  let r := c.Get key now
  match r.1 with
  | (dataOpt, true, isStale) =>
      ((dataOpt, none), r.2, 0, if isStale then [key] else [])
  | (_, false, _) =>
      match refreshFunc with
      | Except.error e => ((none, some e), r.2, 1, [])
      | Except.ok d =>
          ((some d, none), (r.2).SetWithRefresh key d ttl refreshFunc now, 1, [])

/-- Lookup phase of `refreshKey` (cache.go, under the read lock):
the captured refresh function, or `none` when the key is absent or has no
refresh function (silent abort). -/
def Cache.refreshKeyLookup {α : Type} (c : Cache α) (key : String) :
    Option (RefreshFunc α) :=
  match c.store key with
  | none => none
  | some entry => entry.refreshFunc

/-- Commit phase of `refreshKey` (cache.go, after a successful fetch,
under the write lock): if the key still exists update `data`,
`expiresAt = now + defaultTTL`, `lastRefreshAt = now` in place; then
increment the `Refreshes` counter unconditionally. -/
def Cache.refreshKeyCommit {α : Type} (c : Cache α) (key : String)
    (newData : α) (now : Int) : Cache α :=
  let c1 :=
    match c.store key with
    | some entry =>
        let e2 : CacheEntry α :=
          { entry with
            data := newData
            expiresAt := now + c.defaultTTL
            lastRefreshAt := now }
        { c with store := fun k => if k = key then some e2 else c.store k }
    | none => c
  { c1 with stats := { c1.stats with refreshes := c1.stats.refreshes + 1 } }

/-- `refreshKey` (cache.go) run without interference between its phases:
abort silently when the lookup fails; on a fetch error log and return
leaving the cache untouched; on success commit. -/
def Cache.refreshKey {α : Type} (c : Cache α) (key : String) (now : Int) :
    Cache α :=
  match c.refreshKeyLookup key with
  | none => c
  | some (Except.error _) => c
  | some (Except.ok newData) => c.refreshKeyCommit key newData now

/-- `Delete` (cache.go). -/
def Cache.Delete {α : Type} (c : Cache α) (key : String) : Cache α :=
  { c with store := fun k => if k = key then none else c.store k }

/-- Go's `key[:n]` slice, at the rune level. -/
def strTake (s : String) (n : Nat) : String := String.mk (s.data.take n)

/-- `matchesPattern` (cache.go):
`len(pattern) > 0 && len(key) >= len(pattern) && key[:len(pattern)] == pattern`. -/
def matchesPattern (key pat : String) : Bool :=
  decide (0 < pat.length) && decide (pat.length ≤ key.length) &&
    decide (strTake key pat.length = pat)

/-- `InvalidatePattern` (cache.go): delete every key matching the pattern
while ranging over the store. -/
def Cache.InvalidatePattern {α : Type} (c : Cache α) (pat : String) : Cache α :=
  { c with store := fun k => if matchesPattern k pat then none else c.store k }


/-! ### Helper lemmas about `Get` -/

/-- `Get` never touches the Store (it only bumps a counter). -/
theorem Get_store_eq {α : Type} (c : Cache α) (key : String) (now : Int) :
    ((c.Get key now).2).store = c.store := by
  unfold Cache.Get
  rcases h : c.store key with _ | entry
  · simp [Cache.recordMiss]
  · by_cases hb : timeAfter now entry.expiresAt <;>
      simp [hb, Cache.recordMiss, Cache.recordHit]

/-- `Get` leaves the configuration fields unchanged. -/
theorem Get_config_eq {α : Type} (c : Cache α) (key : String) (now : Int) :
    ((c.Get key now).2).defaultTTL = c.defaultTTL ∧
    ((c.Get key now).2).refreshBuffer = c.refreshBuffer := by
  unfold Cache.Get
  rcases h : c.store key with _ | entry
  · simp [Cache.recordMiss]
  · by_cases hb : timeAfter now entry.expiresAt <;>
      simp [hb, Cache.recordMiss, Cache.recordHit]

/-- `Get` on an absent key: miss. -/
theorem Get_absent {α : Type} (c : Cache α) (key : String) (now : Int)
    (h : c.store key = none) :
    c.Get key now = ((none, false, false), c.recordMiss) := by
  simp [Cache.Get, h]

/-- `Get` on an entry whose `expiresAt` lies strictly in the past: miss. -/
theorem Get_expired {α : Type} (c : Cache α) (key : String) (now : Int)
    (e : CacheEntry α) (h : c.store key = some e) (hx : e.expiresAt < now) :
    c.Get key now = ((none, false, false), c.recordMiss) := by
  simp [Cache.Get, h, timeAfter, hx]

/-- `Get` on a present, not strictly expired entry: hit, with staleness
decided by the strict comparison `expiresAt − refreshBuffer < now`. -/
theorem Get_hit {α : Type} (c : Cache α) (key : String) (now : Int)
    (e : CacheEntry α) (h : c.store key = some e) (hx : now ≤ e.expiresAt) :
    c.Get key now =
      ((some e.data, true, decide (e.expiresAt - c.refreshBuffer < now)),
        c.recordHit) := by
  have hb : ¬ (e.expiresAt < now) := by omega
  simp [Cache.Get, h, timeAfter, hb]

/-- Claim C1 (amended: the comparisons are strict, matching Go
`time.Time.After`): `Get(key)` returns `found = false` and records a miss
when the key is absent or `now > expiresAt`; when the key is present and
`now ≤ expiresAt` it returns `found = true` with the stored data, records
a hit, and returns `isStale = true` exactly when
`now > expiresAt − refreshBuffer`. -/
theorem claim1_get_characterization {α : Type} (c : Cache α) (key : String) (now : Int) :
    (c.store key = none → c.Get key now = ((none, false, false), c.recordMiss))
    ∧ (∀ e : CacheEntry α, c.store key = some e → e.expiresAt < now →
        c.Get key now = ((none, false, false), c.recordMiss))
    ∧ (∀ e : CacheEntry α, c.store key = some e → now ≤ e.expiresAt →
        c.Get key now =
          ((some e.data, true, decide (e.expiresAt - c.refreshBuffer < now)),
            c.recordHit)) :=
  ⟨fun h => Get_absent c key now h,
   fun e h hx => Get_expired c key now e h hx,
   fun e h hx => Get_hit c key now e h hx⟩

/-- A concrete entry used by witnesses: expires at instant 10. -/
def wEntryA : CacheEntry Nat :=
  { data := 5, expiresAt := 10, lastRefreshAt := 0, refreshFunc := none }

/-- A concrete one-entry cache with `defaultTTL = 10`, `refreshBuffer = 3`. -/
def wCacheA : Cache Nat :=
  { store := fun k => if k = "k" then some wEntryA else none
    defaultTTL := 10
    refreshBuffer := 3
    stats := { hits := 0, misses := 0, refreshes := 0 } }

/-- Witness for claim C1 at concrete inputs: an absent key at instant 4,
the present key at instant 11 (expired), and the present key at instant 4
(hit). -/
theorem claim1_witness :
    (wCacheA.store "a" = none
      ∧ wCacheA.Get "a" 4 = ((none, false, false), wCacheA.recordMiss))
    ∧ (wCacheA.store "k" = some wEntryA ∧ wEntryA.expiresAt < 11
      ∧ wCacheA.Get "k" 11 = ((none, false, false), wCacheA.recordMiss))
    ∧ ((4 : Int) ≤ wEntryA.expiresAt
      ∧ wCacheA.Get "k" 4 =
          ((some wEntryA.data, true,
            decide (wEntryA.expiresAt - wCacheA.refreshBuffer < 4)),
            wCacheA.recordHit)) :=
  ⟨⟨rfl, (claim1_get_characterization wCacheA "a" 4).1 rfl⟩,
   ⟨rfl, by decide,
    (claim1_get_characterization wCacheA "k" 11).2.1 wEntryA rfl (by decide)⟩,
   ⟨by decide,
    (claim1_get_characterization wCacheA "k" 4).2.2 wEntryA rfl (by decide)⟩⟩

/-- Counterexample to claim C1 as stated: at `now = 10` we have
`now ≥ expiresAt` (the claim demands `found = false`) yet `Get` returns
`found = true`, because Go `After` is strict; and at `now = 7` we have
`now ≥ expiresAt − refreshBuffer = 7` (the claim demands `isStale = true`)
yet `Get` returns `isStale = false`. -/
theorem claim1_cx :
    wCacheA.store "k" = some wEntryA
    ∧ (10 : Int) ≥ wEntryA.expiresAt
    ∧ (wCacheA.Get "k" 10).1.2.1 = true
    ∧ (7 : Int) ≥ wEntryA.expiresAt - wCacheA.refreshBuffer
    ∧ (wCacheA.Get "k" 7).1.2.2 = false :=
  ⟨rfl, by decide, rfl, by decide, rfl⟩

/-! ### The pattern matcher on the empty pattern -/

/-- `matchesPattern` rejects the empty pattern outright. -/
theorem matchesPattern_empty (k : String) : matchesPattern k "" = false := rfl

/-- Claim C9: `InvalidatePattern ""` removes nothing — `matchesPattern`
returns `false` for every key when the pattern is empty — even though
every key has the empty string as a literal leading substring. -/
theorem claim9_empty_pattern (α : Type) :
    (∀ k : String, matchesPattern k "" = false)
    ∧ (∀ c : Cache α, c.InvalidatePattern "" = c)
    ∧ (∀ k : String, strTake k (String.length "") = "") := by
  refine ⟨fun k => matchesPattern_empty k, fun c => ?_, fun k => rfl⟩
  cases c with
  | mk s ttl buf st =>
    have hst : (fun k => if matchesPattern k "" then none else s k) = s := by
      funext k
      simp [matchesPattern_empty]
    show Cache.mk (fun k => if matchesPattern k "" then none else s k) ttl buf st =
      Cache.mk s ttl buf st
    rw [hst]

/-! ### Claim C2: Get immediately after Set -/

/-- Claim C2 (amended: the cache's `defaultTTL` must also be
non-negative): on a cache with `0 ≤ defaultTTL` and
`refreshBuffer < defaultTTL`, `Get k` immediately after `Set k v`
(same instant, no other operation) returns `(v, true, false)`. -/
theorem claim2_set_then_get {α : Type} (c : Cache α) (k : String) (v : α)
    (now : Int) (h0 : 0 ≤ c.defaultTTL) (h1 : c.refreshBuffer < c.defaultTTL) :
    ((c.Set k v now).Get k now).1 = (some v, true, false) := by
  have h2 : ¬ (now + c.defaultTTL < now) := by omega
  have h3 : ¬ (now + c.defaultTTL - c.refreshBuffer < now) := by omega
  simp [Cache.Set, Cache.SetWithTTL, Cache.Get, timeAfter, h2, h3]

/-- A concrete empty cache with `defaultTTL = 10`, `refreshBuffer = 3`. -/
def wCacheB : Cache Nat :=
  { store := fun _ => none
    defaultTTL := 10
    refreshBuffer := 3
    stats := { hits := 0, misses := 0, refreshes := 0 } }

/-- Witness for claim C2: on the concrete cache `wCacheB`,
`Get "k"` right after `Set "k" 5` yields `(5, true, false)`. -/
theorem claim2_witness :
    (0 : Int) ≤ wCacheB.defaultTTL
    ∧ wCacheB.refreshBuffer < wCacheB.defaultTTL
    ∧ ((wCacheB.Set "k" 5 0).Get "k" 0).1 = (some 5, true, false) :=
  ⟨by decide, by decide, claim2_set_then_get wCacheB "k" 5 0 (by decide) (by decide)⟩

/-- A cache whose (pathological but representable) `defaultTTL` is the
negative duration −1ns, with `refreshBuffer = −2ns`. -/
def negCache : Cache Nat :=
  { store := fun _ => none
    defaultTTL := -1
    refreshBuffer := -2
    stats := { hits := 0, misses := 0, refreshes := 0 } }

/-- Counterexample to claim C2 as stated: `negCache` has
`defaultTTL > refreshBuffer` as the claim requires, yet `Get "k"`
immediately after `Set "k" 5` returns `(nil, false, false)` — the entry is
born already expired because the default TTL is a negative duration — not
`(5, true, false)`. -/
theorem claim2_cx :
    negCache.refreshBuffer < negCache.defaultTTL
    ∧ ((negCache.Set "k" (5 : Nat) 0).Get "k" 0).1 = (none, false, false) :=
  ⟨by decide, rfl⟩

/-! ### Claims C3, C8, C10: refreshKey -/

/-- Claim C3: `refreshKey` is a silent no-op when the key is absent or
has no refresh function; when the refresh callback succeeds on a present
key it updates that entry in place — new data,
`expiresAt = now + defaultTTL` (the cache-wide default, not the entry's
original TTL), `lastRefreshAt = now`, refresh function kept — leaves every
other key alone, and increments exactly the refresh counter. -/
theorem claim3_refreshKey {α : Type} (c : Cache α) (key : String) (now : Int) :
    ((c.store key = none
        ∨ ∃ e : CacheEntry α, c.store key = some e ∧ e.refreshFunc = none) →
      c.refreshKey key now = c)
    ∧ (∀ (e : CacheEntry α) (d : α), c.store key = some e →
        e.refreshFunc = some (Except.ok d) →
        (c.refreshKey key now).store key =
          some { e with data := d, expiresAt := now + c.defaultTTL,
                        lastRefreshAt := now }
        ∧ (∀ k : String, k ≠ key → (c.refreshKey key now).store k = c.store k)
        ∧ (c.refreshKey key now).stats.refreshes = c.stats.refreshes + 1
        ∧ (c.refreshKey key now).stats.hits = c.stats.hits
        ∧ (c.refreshKey key now).stats.misses = c.stats.misses) := by
  constructor
  · rintro (h | ⟨e, h, hf⟩)
    · simp [Cache.refreshKey, Cache.refreshKeyLookup, h]
    · simp [Cache.refreshKey, Cache.refreshKeyLookup, h, hf]
  · intro e d h hf
    have hrk : c.refreshKey key now = c.refreshKeyCommit key d now := by
      simp [Cache.refreshKey, Cache.refreshKeyLookup, h, hf]
    rw [hrk]
    refine ⟨?_, ?_, ?_, ?_, ?_⟩
    · simp [Cache.refreshKeyCommit, h]
    · intro k hk
      simp [Cache.refreshKeyCommit, h, hk]
    · simp [Cache.refreshKeyCommit, h]
    · simp [Cache.refreshKeyCommit, h]
    · simp [Cache.refreshKeyCommit, h]

/-- A concrete entry carrying a succeeding refresh function. -/
def eC : CacheEntry Nat :=
  { data := 1, expiresAt := 10, lastRefreshAt := 0,
    refreshFunc := some (Except.ok 9) }

/-- A concrete cache holding `eC` under `"k"`. -/
def wCacheC : Cache Nat :=
  { store := fun k => if k = "k" then some eC else none
    defaultTTL := 10
    refreshBuffer := 3
    stats := { hits := 0, misses := 0, refreshes := 0 } }

/-- Witness for claim C3: the no-op branch on the absent key `"z"` and
the success branch on `"k"` of the concrete cache `wCacheC`. -/
theorem claim3_witness :
    (wCacheC.store "z" = none ∧ wCacheC.refreshKey "z" 5 = wCacheC)
    ∧ (wCacheC.store "k" = some eC
      ∧ eC.refreshFunc = some (Except.ok 9)
      ∧ (wCacheC.refreshKey "k" 5).store "k" =
          some { eC with data := 9, expiresAt := 5 + wCacheC.defaultTTL,
                         lastRefreshAt := 5 }
      ∧ (wCacheC.refreshKey "k" 5).stats.refreshes =
          wCacheC.stats.refreshes + 1) :=
  ⟨⟨rfl, (claim3_refreshKey wCacheC "z" 5).1 (Or.inl rfl)⟩,
   ⟨rfl, rfl,
    ((claim3_refreshKey wCacheC "k" 5).2 eC 9 rfl rfl).1,
    ((claim3_refreshKey wCacheC "k" 5).2 eC 9 rfl rfl).2.2.1⟩⟩

/-- Claim C8: when the refresh callback returns an error, `refreshKey`
leaves the whole cache untouched — in particular the entry keeps serving
its previous data and the refresh counter does not move — and propagates
nothing (its result is just the unchanged cache). -/
theorem claim8_refresh_error {α : Type} (c : Cache α) (key : String)
    (now : Int) (e : CacheEntry α) (msg : String)
    (h : c.store key = some e) (hf : e.refreshFunc = some (Except.error msg)) :
    c.refreshKey key now = c
    ∧ (c.refreshKey key now).store key = some e
    ∧ (c.refreshKey key now).stats.refreshes = c.stats.refreshes := by
  have hrk : c.refreshKey key now = c := by
    simp [Cache.refreshKey, Cache.refreshKeyLookup, h, hf]
  exact ⟨hrk, by rw [hrk]; exact h, by rw [hrk]⟩

/-- A concrete entry whose refresh function fails. -/
def eE : CacheEntry Nat :=
  { data := 7, expiresAt := 10, lastRefreshAt := 0,
    refreshFunc := some (Except.error "boom") }

/-- A concrete cache holding the failing-refresh entry `eE` under `"k"`. -/
def wCacheE : Cache Nat :=
  { store := fun k => if k = "k" then some eE else none
    defaultTTL := 10
    refreshBuffer := 3
    stats := { hits := 0, misses := 0, refreshes := 0 } }

/-- Witness for claim C8 on the concrete cache `wCacheE`. -/
theorem claim8_witness :
    wCacheE.store "k" = some eE
    ∧ eE.refreshFunc = some (Except.error "boom")
    ∧ wCacheE.refreshKey "k" 5 = wCacheE
    ∧ (wCacheE.refreshKey "k" 5).stats.refreshes = wCacheE.stats.refreshes :=
  ⟨rfl, rfl, (claim8_refresh_error wCacheE "k" 5 eE "boom" rfl rfl).1,
   (claim8_refresh_error wCacheE "k" 5 eE "boom" rfl rfl).2.2⟩

/-- Claim C10: if the key is deleted between `refreshKey`'s successful
fetch and its write-back, the commit phase leaves the Store unchanged —
the key is not re-inserted — but still increments the `Refreshes` counter:
the counter counts successful refresh fetches, not cache updates. -/
theorem claim10_commit_after_delete {α : Type} (c : Cache α) (key : String)
    (e : CacheEntry α) (d : α) (now : Int)
    (_h : c.store key = some e) (_hf : e.refreshFunc = some (Except.ok d)) :
    ((c.Delete key).refreshKeyCommit key d now).store = (c.Delete key).store
    ∧ ((c.Delete key).refreshKeyCommit key d now).store key = none
    ∧ ((c.Delete key).refreshKeyCommit key d now).stats.refreshes =
        c.stats.refreshes + 1 := by
  have hd : (c.Delete key).store key = none := by simp [Cache.Delete]
  refine ⟨?_, ?_, ?_⟩
  · simp [Cache.refreshKeyCommit, hd]
  · simp [Cache.refreshKeyCommit, hd, Cache.Delete]
  · simp [Cache.refreshKeyCommit, hd, Cache.Delete]

/-- Witness for claim C10 on the concrete cache `wCacheC`: delete `"k"`
after its refresh function has succeeded with 9, then commit. -/
theorem claim10_witness :
    wCacheC.store "k" = some eC
    ∧ eC.refreshFunc = some (Except.ok 9)
    ∧ ((wCacheC.Delete "k").refreshKeyCommit "k" 9 5).store "k" = none
    ∧ ((wCacheC.Delete "k").refreshKeyCommit "k" 9 5).stats.refreshes =
        wCacheC.stats.refreshes + 1 :=
  ⟨rfl, rfl,
   (claim10_commit_after_delete wCacheC "k" eC 9 5 rfl rfl).2.1,
   (claim10_commit_after_delete wCacheC "k" eC 9 5 rfl rfl).2.2⟩

/-! ### Helper lemmas about the GetOrSet family -/

/-- `GetOrSet` on a miss with a failing fetch. -/
theorem GetOrSet_miss_error {α : Type} (c : Cache α) (key : String) (ttl : Int)
    (msg : String) (now : Int) (h : (c.Get key now).1.2.1 = false) :
    c.GetOrSet key ttl (Except.error msg) now =
      ((none, some msg), (c.Get key now).2, 1, []) := by
  rcases hr : c.Get key now with ⟨⟨dataOpt, found, isStale⟩, c1⟩
  have hf : found = false := by rw [hr] at h; exact h
  subst hf
  simp [Cache.GetOrSet, hr]

/-- `GetOrSet` on a miss with a succeeding fetch. -/
theorem GetOrSet_miss_ok {α : Type} (c : Cache α) (key : String) (ttl : Int)
    (d : α) (now : Int) (h : (c.Get key now).1.2.1 = false) :
    c.GetOrSet key ttl (Except.ok d) now =
      ((some d, none), ((c.Get key now).2).SetWithTTL key d ttl none now, 1, []) := by
  rcases hr : c.Get key now with ⟨⟨dataOpt, found, isStale⟩, c1⟩
  have hf : found = false := by rw [hr] at h; exact h
  subst hf
  simp [Cache.GetOrSet, hr]

/-- `GetOrSet` on a hit: the fetch closure is not invoked. -/
theorem GetOrSet_hit {α : Type} (c : Cache α) (key : String) (ttl : Int)
    (f : Except String α) (now : Int) (e : CacheEntry α)
    (h : c.store key = some e) (hx : now ≤ e.expiresAt) :
    c.GetOrSet key ttl f now =
      ((some e.data, none), c.recordHit, 0,
        if decide (e.expiresAt - c.refreshBuffer < now) then [key] else []) := by
  have hg := Get_hit c key now e h hx
  simp [Cache.GetOrSet, hg]

/-- `GetOrSetWithRefresh` on a miss with a failing refresh closure. -/
theorem GetOrSetWithRefresh_miss_error {α : Type} (c : Cache α) (key : String)
    (ttl : Int) (msg : String) (now : Int) (h : (c.Get key now).1.2.1 = false) :
    c.GetOrSetWithRefresh key ttl (Except.error msg) now =
      ((none, some msg), (c.Get key now).2, 1, []) := by
  rcases hr : c.Get key now with ⟨⟨dataOpt, found, isStale⟩, c1⟩
  have hf : found = false := by rw [hr] at h; exact h
  subst hf
  simp [Cache.GetOrSetWithRefresh, hr]

/-- `GetOrSetWithRefresh` on a miss with a succeeding refresh closure. -/
theorem GetOrSetWithRefresh_miss_ok {α : Type} (c : Cache α) (key : String)
    (ttl : Int) (d : α) (now : Int) (h : (c.Get key now).1.2.1 = false) :
    c.GetOrSetWithRefresh key ttl (Except.ok d) now =
      ((some d, none),
        ((c.Get key now).2).SetWithRefresh key d ttl (Except.ok d) now, 1, []) := by
  rcases hr : c.Get key now with ⟨⟨dataOpt, found, isStale⟩, c1⟩
  have hf : found = false := by rw [hr] at h; exact h
  subst hf
  simp [Cache.GetOrSetWithRefresh, hr]

/-- `GetOrSetWithRefresh` on a hit: the refresh closure is not invoked. -/
theorem GetOrSetWithRefresh_hit {α : Type} (c : Cache α) (key : String)
    (ttl : Int) (f : Except String α) (now : Int) (e : CacheEntry α)
    (h : c.store key = some e) (hx : now ≤ e.expiresAt) :
    c.GetOrSetWithRefresh key ttl f now =
      ((some e.data, none), c.recordHit, 0,
        if decide (e.expiresAt - c.refreshBuffer < now) then [key] else []) := by
  have hg := Get_hit c key now e h hx
  simp [Cache.GetOrSetWithRefresh, hg]

/-! ### Claim C4: fetch failure on a miss leaves the Store untouched -/

/-- Claim C4: when the key misses and the fetch closure fails, `GetOrSet`
(and `GetOrSetWithRefresh`) returns the error to the caller and the Store
mapping is exactly what it was before the call. -/
theorem claim4_fetch_error {α : Type} (c : Cache α) (key : String)
    (ttl now : Int) (msg : String) (h : (c.Get key now).1.2.1 = false) :
    ((c.GetOrSet key ttl (Except.error msg) now).1 = (none, some msg)
      ∧ ((c.GetOrSet key ttl (Except.error msg) now).2.1).store = c.store)
    ∧ ((c.GetOrSetWithRefresh key ttl (Except.error msg) now).1 = (none, some msg)
      ∧ ((c.GetOrSetWithRefresh key ttl (Except.error msg) now).2.1).store
          = c.store) := by
  rw [GetOrSet_miss_error c key ttl msg now h,
    GetOrSetWithRefresh_miss_error c key ttl msg now h]
  exact ⟨⟨rfl, Get_store_eq c key now⟩, ⟨rfl, Get_store_eq c key now⟩⟩

/-- Witness for claim C4 on the concrete empty cache `wCacheB` with the
failing closure `error "down"`. -/
theorem claim4_witness :
    (wCacheB.Get "k" 0).1.2.1 = false
    ∧ (wCacheB.GetOrSet "k" 10 (Except.error "down") 0).1 = (none, some "down")
    ∧ ((wCacheB.GetOrSet "k" 10 (Except.error "down") 0).2.1).store = wCacheB.store
    ∧ (wCacheB.GetOrSetWithRefresh "k" 10 (Except.error "down") 0).1
        = (none, some "down")
    ∧ ((wCacheB.GetOrSetWithRefresh "k" 10 (Except.error "down") 0).2.1).store
        = wCacheB.store :=
  ⟨rfl,
   (claim4_fetch_error wCacheB "k" 10 0 "down" rfl).1.1,
   (claim4_fetch_error wCacheB "k" 10 0 "down" rfl).1.2,
   (claim4_fetch_error wCacheB "k" 10 0 "down" rfl).2.1,
   (claim4_fetch_error wCacheB "k" 10 0 "down" rfl).2.2⟩

/-! ### Claim C5: the write invariant expiresAt = lastRefreshAt + ttl -/

/-- Any `SetWithTTL` write satisfies `expiresAt = lastRefreshAt + ttl`. -/
theorem SetWithTTL_invariant {α : Type} (c : Cache α) (key : String) (v : α)
    (ttl : Int) (rf : Option (RefreshFunc α)) (now : Int) (e : CacheEntry α)
    (h : (c.SetWithTTL key v ttl rf now).store key = some e) :
    e.expiresAt = e.lastRefreshAt + ttl := by
  simp [Cache.SetWithTTL] at h
  subst h
  rfl

/-- Claim C5: at the moment every successful write commits — `Set`,
`SetWithTTL`, `SetWithRefresh`, the miss-path store of
`GetOrSet`/`GetOrSetWithRefresh`, or a successful `refreshKey` write-back
— the written entry satisfies `expiresAt = lastRefreshAt + ttl`, where
`ttl` is the duration applied by that write (the `defaultTTL` for a
refresh). -/
theorem claim5_write_invariant (α : Type) :
    (∀ (c : Cache α) (key : String) (v : α) (ttl : Int)
        (rf : Option (RefreshFunc α)) (now : Int) (e : CacheEntry α),
      (c.SetWithTTL key v ttl rf now).store key = some e →
      e.expiresAt = e.lastRefreshAt + ttl)
    ∧ (∀ (c : Cache α) (key : String) (v : α) (now : Int) (e : CacheEntry α),
      (c.Set key v now).store key = some e →
      e.expiresAt = e.lastRefreshAt + c.defaultTTL)
    ∧ (∀ (c : Cache α) (key : String) (v : α) (ttl : Int)
        (rf : RefreshFunc α) (now : Int) (e : CacheEntry α),
      (c.SetWithRefresh key v ttl rf now).store key = some e →
      e.expiresAt = e.lastRefreshAt + ttl)
    ∧ (∀ (c : Cache α) (key : String) (ttl : Int) (d : α) (now : Int)
        (e : CacheEntry α),
      (c.Get key now).1.2.1 = false →
      ((c.GetOrSet key ttl (Except.ok d) now).2.1).store key = some e →
      e.expiresAt = e.lastRefreshAt + ttl)
    ∧ (∀ (c : Cache α) (key : String) (ttl : Int) (d : α) (now : Int)
        (e : CacheEntry α),
      (c.Get key now).1.2.1 = false →
      ((c.GetOrSetWithRefresh key ttl (Except.ok d) now).2.1).store key = some e →
      e.expiresAt = e.lastRefreshAt + ttl)
    ∧ (∀ (c : Cache α) (key : String) (d : α) (now : Int)
        (e0 e : CacheEntry α),
      c.store key = some e0 →
      (c.refreshKeyCommit key d now).store key = some e →
      e.expiresAt = e.lastRefreshAt + c.defaultTTL) := by
  refine ⟨?_, ?_, ?_, ?_, ?_, ?_⟩
  · exact fun c key v ttl rf now e h => SetWithTTL_invariant c key v ttl rf now e h
  · exact fun c key v now e h =>
      SetWithTTL_invariant c key v c.defaultTTL none now e h
  · exact fun c key v ttl rf now e h =>
      SetWithTTL_invariant c key v ttl (some rf) now e h
  · intro c key ttl d now e hmiss h
    rw [GetOrSet_miss_ok c key ttl d now hmiss] at h
    exact SetWithTTL_invariant _ key d ttl none now e h
  · intro c key ttl d now e hmiss h
    rw [GetOrSetWithRefresh_miss_ok c key ttl d now hmiss] at h
    exact SetWithTTL_invariant _ key d ttl (some (Except.ok d)) now e h
  · intro c key d now e0 e h0 h
    simp [Cache.refreshKeyCommit, h0] at h
    subst h
    rfl

/-- Witness for claim C5: the `SetWithTTL` conjunct evaluated on the
concrete cache `wCacheB`, which writes exactly the entry `wEntryA`. -/
theorem claim5_witness :
    (wCacheB.SetWithTTL "k" 5 10 none 0).store "k" = some wEntryA
    ∧ wEntryA.expiresAt = wEntryA.lastRefreshAt + 10 :=
  ⟨rfl, (claim5_write_invariant Nat).1 wCacheB "k" 5 10 none 0 wEntryA rfl⟩

/-! ### Claim C6: prefix invalidation -/

/-- A nonempty string has positive length. -/
theorem length_pos_of_ne_empty (pat : String) (hp : pat ≠ "") :
    0 < pat.length := by
  cases pat with
  | mk l =>
    cases l with
    | nil => exact absurd rfl hp
    | cons a t => simp [String.length]

/-- If the leading slice of `k` of the pattern's length equals the
pattern, the pattern is no longer than `k`. -/
theorem length_le_of_strTake_eq (k pat : String)
    (h : strTake k pat.length = pat) : pat.length ≤ k.length := by
  have hd : k.data.take pat.length = pat.data := congrArg String.data h
  have hl : (k.data.take pat.length).length = pat.data.length := by rw [hd]
  rw [List.length_take] at hl
  have h1 : pat.length = pat.data.length := rfl
  have h2 : k.length = k.data.length := rfl
  omega

/-- On a nonempty pattern, `matchesPattern` is exactly the literal
leading-substring test. -/
theorem matchesPattern_eq_of_ne_empty (k pat : String) (hp : pat ≠ "") :
    matchesPattern k pat = decide (strTake k pat.length = pat) := by
  have hlen : 0 < pat.length := length_pos_of_ne_empty pat hp
  by_cases hk : strTake k pat.length = pat
  · have hle : pat.length ≤ k.length := length_le_of_strTake_eq k pat hk
    simp [matchesPattern, hlen, hle, hk]
  · simp [matchesPattern, hk]

/-- Claim C6 (amended: restricted to nonempty prefixes — see the
counterexample for the empty prefix, which `matchesPattern` rejects):
`InvalidatePattern prefixStr` removes from the Store exactly the keys
whose literal leading substring equals `prefixStr` and leaves every other
key untouched. -/
theorem claim6_invalidate {α : Type} (c : Cache α) (pat : String)
    (hp : pat ≠ "") (k : String) :
    (c.InvalidatePattern pat).store k =
      if strTake k pat.length = pat then none else c.store k := by
  by_cases hk : strTake k pat.length = pat
  · simp [Cache.InvalidatePattern, matchesPattern_eq_of_ne_empty k pat hp, hk]
  · simp [Cache.InvalidatePattern, matchesPattern_eq_of_ne_empty k pat hp, hk]

/-- A concrete plain entry for the account-store example. -/
def accEntry : CacheEntry Nat :=
  { data := 0, expiresAt := 100, lastRefreshAt := 0, refreshFunc := none }

/-- The spec's example store: `"account:1"`, `"account:2"`,
`"activities:1"`. -/
def accCache : Cache Nat :=
  { store := fun k =>
      if k = "account:1" then some accEntry
      else if k = "account:2" then some accEntry
      else if k = "activities:1" then some accEntry
      else none
    defaultTTL := 10
    refreshBuffer := 3
    stats := { hits := 0, misses := 0, refreshes := 0 } }

/-- Witness for claim C6: `InvalidatePattern "account:"` on the example
store removes `"account:1"` and `"account:2"` and leaves `"activities:1"`
exactly as it was. -/
theorem claim6_witness :
    ("account:" : String) ≠ ""
    ∧ (accCache.InvalidatePattern "account:").store "account:1" = none
    ∧ (accCache.InvalidatePattern "account:").store "account:2" = none
    ∧ (accCache.InvalidatePattern "account:").store "activities:1"
        = accCache.store "activities:1" :=
  ⟨by decide,
   (claim6_invalidate accCache "account:" (by decide) "account:1").trans
     (if_pos (by decide)),
   (claim6_invalidate accCache "account:" (by decide) "account:2").trans
     (if_pos (by decide)),
   (claim6_invalidate accCache "account:" (by decide) "activities:1").trans
     (if_neg (by decide))⟩

/-- A one-key cache used by the claim C6 counterexample. -/
def oneKeyCache : Cache Nat :=
  { store := fun k => if k = "a" then some accEntry else none
    defaultTTL := 10
    refreshBuffer := 3
    stats := { hits := 0, misses := 0, refreshes := 0 } }

/-- Counterexample to claim C6 as stated over every prefix string: with
the empty prefix, the key `"a"`'s literal leading substring of the
prefix's length equals the prefix, so the claim demands that `"a"` be
removed — yet `InvalidatePattern ""` leaves it in place, because
`matchesPattern` rejects the empty pattern. -/
theorem claim6_cx :
    strTake "a" (String.length "") = ""
    ∧ (oneKeyCache.InvalidatePattern "").store "a" = some accEntry :=
  ⟨rfl, rfl⟩

/-! ### Claim C7: two successive GetOrSet calls fetch exactly once -/

/-- Claim C7: with the key initially missing and the first fetch
succeeding with `v`, two successive `GetOrSet` calls with no intervening
expiry (`now2 ≤ now1 + ttl`) invoke the fetch closure exactly once — on
the first call — and the second call returns the cached `v` without
invoking its closure (`f2`, arbitrary); `GetOrSetWithRefresh` satisfies
the same synchronous invocation-count property with its refresh closure
(the second call may dispatch a background refresh, which is recorded,
not run). -/
theorem claim7_single_fetch {α : Type} (c : Cache α) (key : String)
    (ttl : Int) (v : α) (f2 g2 : Except String α) (now1 now2 : Int)
    (hmiss : (c.Get key now1).1.2.1 = false) (hne : now2 ≤ now1 + ttl) :
    ((c.GetOrSet key ttl (Except.ok v) now1).2.2.1 = 1
      ∧ ((c.GetOrSet key ttl (Except.ok v) now1).2.1.GetOrSet
          key ttl f2 now2).2.2.1 = 0
      ∧ ((c.GetOrSet key ttl (Except.ok v) now1).2.1.GetOrSet
          key ttl f2 now2).1 = (some v, none))
    ∧ ((c.GetOrSetWithRefresh key ttl (Except.ok v) now1).2.2.1 = 1
      ∧ ((c.GetOrSetWithRefresh key ttl (Except.ok v) now1).2.1.GetOrSetWithRefresh
          key ttl g2 now2).2.2.1 = 0
      ∧ ((c.GetOrSetWithRefresh key ttl (Except.ok v) now1).2.1.GetOrSetWithRefresh
          key ttl g2 now2).1 = (some v, none)) := by
  have h1 := GetOrSet_miss_ok c key ttl v now1 hmiss
  have hs1 : (((c.Get key now1).2).SetWithTTL key v ttl none now1).store key =
      some { data := v, expiresAt := now1 + ttl, lastRefreshAt := now1,
             refreshFunc := none } := by
    simp [Cache.SetWithTTL]
  have h2 := GetOrSet_hit (((c.Get key now1).2).SetWithTTL key v ttl none now1)
    key ttl f2 now2 _ hs1 hne
  have h3 := GetOrSetWithRefresh_miss_ok c key ttl v now1 hmiss
  have hs2 : (((c.Get key now1).2).SetWithRefresh key v ttl
      (Except.ok v) now1).store key =
      some { data := v, expiresAt := now1 + ttl, lastRefreshAt := now1,
             refreshFunc := some (Except.ok v) } := by
    simp [Cache.SetWithRefresh, Cache.SetWithTTL]
  have h4 := GetOrSetWithRefresh_hit
    (((c.Get key now1).2).SetWithRefresh key v ttl (Except.ok v) now1)
    key ttl g2 now2 _ hs2 hne
  rw [h1, h3]
  exact ⟨⟨rfl, by rw [h2], by rw [h2]⟩, ⟨rfl, by rw [h4], by rw [h4]⟩⟩

/-- Witness for claim C7 on the concrete empty cache `wCacheB`: first
call at instant 0 with fetch result 5, second call at instant 4 whose
closure is a failing one — showing it is not invoked. -/
theorem claim7_witness :
    (wCacheB.Get "k" 0).1.2.1 = false
    ∧ (4 : Int) ≤ 0 + 10
    ∧ (wCacheB.GetOrSet "k" 10 (Except.ok 5) 0).2.2.1 = 1
    ∧ ((wCacheB.GetOrSet "k" 10 (Except.ok 5) 0).2.1.GetOrSet
        "k" 10 (Except.error "na") 4).2.2.1 = 0
    ∧ ((wCacheB.GetOrSet "k" 10 (Except.ok 5) 0).2.1.GetOrSet
        "k" 10 (Except.error "na") 4).1 = (some 5, none)
    ∧ (wCacheB.GetOrSetWithRefresh "k" 10 (Except.ok 5) 0).2.2.1 = 1
    ∧ ((wCacheB.GetOrSetWithRefresh "k" 10 (Except.ok 5) 0).2.1.GetOrSetWithRefresh
        "k" 10 (Except.error "na") 4).2.2.1 = 0
    ∧ ((wCacheB.GetOrSetWithRefresh "k" 10 (Except.ok 5) 0).2.1.GetOrSetWithRefresh
        "k" 10 (Except.error "na") 4).1 = (some 5, none) :=
  ⟨rfl, by decide,
   (claim7_single_fetch wCacheB "k" 10 5 (Except.error "na") (Except.error "na")
      0 4 rfl (by decide)).1.1,
   (claim7_single_fetch wCacheB "k" 10 5 (Except.error "na") (Except.error "na")
      0 4 rfl (by decide)).1.2.1,
   (claim7_single_fetch wCacheB "k" 10 5 (Except.error "na") (Except.error "na")
      0 4 rfl (by decide)).1.2.2,
   (claim7_single_fetch wCacheB "k" 10 5 (Except.error "na") (Except.error "na")
      0 4 rfl (by decide)).2.1,
   (claim7_single_fetch wCacheB "k" 10 5 (Except.error "na") (Except.error "na")
      0 4 rfl (by decide)).2.2.1,
   (claim7_single_fetch wCacheB "k" 10 5 (Except.error "na") (Except.error "na")
      0 4 rfl (by decide)).2.2.2⟩
